/-
Verification of the hutoma-client request/response pipeline and object model.

Each definition below is a shallow embedding of a function of the Python
source, with the file and line range of the original given in its doc
comment.  Python strings are modelled as Lean `String` (or `List Char`
where character-level scanning matters), Python dicts as association
lists, JSON values as an inductive type, and raised exceptions as the
`Except` monad.  External collaborators (the `requests` library, the
`htmlentitydefs` entity table) are modelled from their standard,
documented behaviour where the source calls into them.
-/
import Mathlib

set_option linter.unusedVariables false

deriving instance DecidableEq for Except

namespace HutomaSpec

/-- A JSON value, as produced by `json.loads`: the decoded payloads that
`hutoma` passes around.  Objects are association lists of string keys
(`json.loads` never yields duplicate keys). -/
inductive Json where
  | null : Json
  | bool (b : Bool) : Json
  | num (n : Int) : Json
  | str (s : String) : Json
  | arr (xs : List Json) : Json
  | obj (fields : List (String × Json)) : Json

/-- Python dict lookup `d[k]` on an association list: first binding wins,
`none` models a raised `KeyError`. -/
def lookupField {α : Type} (fields : List (String × α)) (k : String) : Option α :=
  match fields with
  | [] => none
  | (k2, v) :: rest => if k2 = k then some v else lookupField rest k

/-- Python `s.endswith(suffix)`, via the character data of the strings. -/
def endsWithPy (s suffix : String) : Bool :=
  suffix.data.isSuffixOf s.data

/-- `hutoma/helpers.py` lines 1-7, `normalize_url`: strip one trailing
`.json` (Python `url[:-5]`), then one trailing slash (`url[:-1]`). -/
def normalize_url (url : String) : String :=
  let url2 := if endsWithPy url ".json" then url.dropRight 5 else url
  if endsWithPy url2 "/" then url2.dropRight 1 else url2

/-- The HTTP-transport exceptions of `hutoma/errors.py` (lines 73-99)
that the dispatcher can raise, each carrying the raw response, modelled
here by its status code (the `_raw.status_code` the retry loop reads). -/
inductive HErr where
  | forbidden (status : Nat) : HErr
  | notFound (status : Nat) : HErr
  | httpError (status : Nat) : HErr
deriving DecidableEq

/-- The status code carried by an HTTP exception: `error._raw.status_code`
as read at `hutoma/__init__.py` line 236. -/
def statusOf : HErr → Nat
  | .forbidden s => s
  | .notFound s => s
  | .httpError s => s

/-- `hutoma/internal.py` lines 66-77, `_raise_response_exceptions`:
status 403 (`codes.forbidden`) raises `Forbidden`, 404 (`codes.not_found`)
raises `NotFound`, and otherwise `response.raise_for_status()` is called.
The latter is the external `requests` library, which raises `HTTPError`
exactly for client-error and server-error codes, i.e. 400 ≤ status < 600;
that `HTTPError` is re-raised as a generic `HTTPException`.  A status
outside 400-599 raises nothing and the response is returned (`.ok`). -/
def raise_response_exceptions (s : Nat) : Except HErr Nat :=
  if s = 403 then .error (.forbidden s)
  else if s = 404 then .error (.notFound s)
  else if 400 ≤ s ∧ s < 600 then .error (.httpError s)
  else .ok s

/-- `hutoma/__init__.py` line 109: the status codes `_request` retries. -/
def RETRY_CODES : List Nat := [502, 503, 504]

/-- `hutoma/__init__.py` lines 223-238: the `while True` retry loop of
`BaseHutoma._request`.  `respond i` is the terminal status code produced
by `handle_redirect()` on the i-th attempt (the prepared request itself,
built once at line 219 outside the loop, does not change between
attempts, so attempts differ only in their index).  `remaining` is
`remaining_attempts`; on an `HTTPException` the code decrements it and
re-raises unless the status is in `RETRY_CODES` and the decremented
counter is nonzero.  The `remaining = 0` equation is unreachable from
`runRequest` (line 222 starts the counter at 3 or 1); it is given the
re-raise behaviour for totality. -/
def runRequestLoop (respond : Nat → Nat) : (i : Nat) → (remaining : Nat) → Except HErr Nat
  | i, 0 => raise_response_exceptions (respond i)
  | i, n + 1 =>
    match raise_response_exceptions (respond i) with
    | .ok s => .ok s
    | .error e =>
      if statusOf e ∈ RETRY_CODES ∧ n ≠ 0 then runRequestLoop respond (i + 1) n
      else .error e

/-- `hutoma/__init__.py` line 222: `remaining_attempts = 3 if
retry_on_error else 1`, then the retry loop starting at the first
attempt. -/
def runRequest (respond : Nat → Nat) (retry_on_error : Bool) : Except HErr Nat :=
  runRequestLoop respond 0 (if retry_on_error then 3 else 1)

/-- An HTTP response as seen by the redirect logic: its status code, the
final url of the response (`response.url`) and the `location` header. -/
structure RResponse where
  status : Nat
  url : String
  location : String
deriving DecidableEq

/-- `hutoma/internal.py` lines 54-63, `_raise_redirect_exceptions`:
return the new url for a 301, 302 or 307 response (the `location` header
resolved against the response url by the external `requests.compat.urljoin`,
abstracted here as the parameter `urljoin`), and `None` otherwise. -/
def raise_redirect_exceptions (urljoin : String → String → String)
    (r : RResponse) : Option String :=
  if r.status = 301 ∨ r.status = 302 ∨ r.status = 307 then
    some (urljoin r.url r.location)
  else none

/-- Outcome of the manual redirect loop: the terminal response, a failed
`assert` (a fatal `AssertionError`), or exhausted fuel (which models the
loop running forever). -/
inductive RedirectOutcome where
  | terminal (r : RResponse) : RedirectOutcome
  | assertionFailed : RedirectOutcome
  | fuelOut : RedirectOutcome
deriving DecidableEq

/-- `hutoma/__init__.py` lines 198-216, the `handle_redirect` inner
function of `_request`: issue the request at the current url (`respond`
abstracts the handler call, mapping a url to its response), ask
`_raise_redirect_exceptions` for a new url, stop with the terminal
response when there is none, and otherwise `assert url != request.url`
before re-issuing against the new url.  When the resolved target equals
the url just requested the assert fails (line 215).  The fuel argument
bounds the number of iterations so the loop is a total function; a
`fuelOut` result means the real loop is still running after that many
iterations. -/
def handle_redirect (urljoin : String → String → String)
    (respond : String → RResponse) : (fuel : Nat) → (url : String) → RedirectOutcome
  | 0, _ => .fuelOut
  | fuel + 1, url =>
    let resp := respond url
    match raise_redirect_exceptions urljoin resp with
    | none => .terminal resp
    | some newUrl =>
      if newUrl = url then .assertionFailed
      else handle_redirect urljoin respond fuel newUrl

/-- Representative entries of the external `six.moves.html_entities
.name2codepoint` table (Python `htmlentitydefs`), which maps *named*
HTML entities to their Unicode code points.  Every key of the real table
is an alphanumeric entity name; in particular no key begins with the
character `#`, so numeric character references are never in the table. -/
def name2codepoint : List (String × Nat) :=
  [("amp", 38), ("lt", 60), ("gt", 62), ("quot", 34), ("nbsp", 160),
   ("copy", 169), ("reg", 174), ("eacute", 233), ("agrave", 224),
   ("mdash", 8212), ("hellip", 8230)]

/-- `hutoma/__init__.py` lines 195-196 and 231: the body of
`re.sub(..., decode, response.text)` for the pattern matching an
ampersand, a nonempty run of characters other than a semicolon, and a
semicolon.  Scanning left to right: at an ampersand, the candidate group
is everything up to the next semicolon; when such a semicolon exists and
the group is nonempty, `decode` replaces the whole match by
`CHR(name2codepoint[group])` - a group absent from the table raises an
uncaught `KeyError` (modelled by `.error ()`), which aborts the whole
substitution.  When the group would be empty or no semicolon follows,
the regex does not match there and the text is kept as is.  The fuel
argument makes the recursion structural; `decodeEntities` below supplies
fuel equal to the text length, which a lemma shows is always enough. -/
def decodeEntitiesFuel (table : List (String × Nat)) :
    Nat → List Char → Except Unit (List Char)
  | 0, l => .ok l
  | _ + 1, [] => .ok []
  | fuel + 1, c :: rest =>
    if c = '&' then
      match rest.dropWhile (· ≠ ';') with
      | ';' :: rest2 =>
        let body := rest.takeWhile (· ≠ ';')
        if body.isEmpty then
          (decodeEntitiesFuel table fuel rest).map (fun t => '&' :: t)
        else
          match lookupField table (String.mk body) with
          | some cp => (decodeEntitiesFuel table fuel rest2).map (fun t => Char.ofNat cp :: t)
          | none => .error ()
      | _ => .ok (c :: rest)
    else
      (decodeEntitiesFuel table fuel rest).map (fun t => c :: t)

/-- The entity substitution applied to a whole body text
(`hutoma/__init__.py` line 231). -/
def decodeEntities (table : List (String × Nat)) (l : List Char) : Except Unit (List Char) :=
  decodeEntitiesFuel table l.length l

/-- Whether the regex of `hutoma/__init__.py` line 231 finds a match in
the text: an ampersand followed by a nonempty run of characters other
than a semicolon and then a semicolon, scanning as the decoder does.
Texts on which this is `false` are left unchanged by the substitution. -/
def hasEntityPattern : List Char → Bool
  | [] => false
  | c :: rest =>
    if c = '&' then
      match rest.dropWhile (· ≠ ';') with
      | ';' :: _ =>
        if (rest.takeWhile (· ≠ ';')).isEmpty then hasEntityPattern rest else true
      | _ => false
    else hasEntityPattern rest

/-- What a successful `_request` returns (`hutoma/__init__.py` lines
228-231): the raw response object when `raw_response` is set, and the
entity-decoded body text otherwise. -/
inductive ReturnVal where
  | raw (status : Nat) (text : List Char) : ReturnVal
  | text (t : List Char) : ReturnVal
deriving DecidableEq

/-- `hutoma/__init__.py` lines 228-231: the return branch of `_request`
on a response that raised no exception. -/
def successReturn (raw_response : Bool) (status : Nat) (text : List Char) :
    Except Unit ReturnVal :=
  if raw_response then .ok (.raw status text)
  else (decodeEntities name2codepoint text).map .text

/-- The `HutomaObject` subtypes registered in `Config.by_kind`
(`hutoma/__init__.py` lines 79-83): `AIList`, `AI`, `Folder`, `Chat` and
`Training` from `hutoma/objects.py`. -/
inductive KindClass where
  | aiList : KindClass
  | ai : KindClass
  | folder : KindClass
  | chat : KindClass
  | training : KindClass
deriving DecidableEq

/-- `Config.by_kind` (`hutoma/__init__.py` lines 79-83): kind string to
subtype. -/
def by_kind : List (String × KindClass) :=
  [("ai_list", .aiList), ("ai", .ai), ("folder", .folder),
   ("chat", .chat), ("training", .training)]

/-- `hutoma/objects.py` line 12: `HUTOMA_KEYS = ('AIID')`.  The
parentheses do not build a tuple, so `HUTOMA_KEYS` is the *string*
`AIID`, and the Python membership test `name in HUTOMA_KEYS` used by
`__setattr__` is the contiguous-substring test on that string. -/
def HUTOMA_KEYS : String := "AIID"

/-- Python `needle in haystack` on strings: `needle` occurs as a
contiguous substring of `haystack` (the empty string always does). -/
def strIn (needle haystack : String) : Bool :=
  (List.range (haystack.data.length + 1)).any
    (fun i => needle.data.isPrefixOf (haystack.data.drop i))

/-- Python truthiness of a decoded JSON value: `None`, `False`, `0`, the
empty string, the empty list and the empty dict are falsy. -/
def truthy : Json → Bool
  | .null => false
  | .bool b => b
  | .num n => n != 0
  | .str s => !s.isEmpty
  | .arr xs => !xs.isEmpty
  | .obj fs => !fs.isEmpty

/-- The value that `object.__setattr__` ends up storing for one
attribute when `HutomaObject.__setattr__` does store one: the raw value,
or `None` (the `[deleted]` arm). -/
inductive Attr where
  | raw (v : Json) : Attr
  | pyNone : Attr

/-- Result of `BaseHutoma._json_hutoma_objecter`: a constructor call on
a known subtype with the `data` field of the entry (the call itself
raises; see `from_api_response` below), the unwrapped value of a `json`
key, the raw entry passed through, or an uncaught exception (`KeyError`
when a known kind has no `data` field, `TypeError` when the `kind` value
is an unhashable list or dict). -/
inductive Objected where
  | constructed (cls : KindClass) (data : Json) : Objected
  | passthrough (v : Json) : Objected
  | rawEntry (fields : List (String × Json)) : Objected
  | keyErrorData : Objected
  | typeErrorKind : Objected

/-- The kind lookup of `hutoma/__init__.py` line 243,
`self.config.by_kind[json_data[ 'kind' ]]`: a string kind is looked up
in `by_kind`; numbers, booleans and `null` are hashable but never keys
of `by_kind`.  A `none` result models the `KeyError` the source catches. -/
def kindLookup : Json → Option KindClass
  | .str s => lookupField by_kind s
  | _ => none

/-- `hutoma/__init__.py` lines 240-252, `_json_hutoma_objecter`, paired
with whether `warn_explicit` was called.  The `try` block covers only
the `by_kind` lookup: a missing `kind` key or an unknown kind takes the
`except KeyError` path, which returns the value of a `json` key when one
exists (warning first when the entry has other keys besides it) and
falls through to returning the raw entry otherwise.  A known kind calls
`from_api_response` on the `data` field; a missing `data` field there
raises an uncaught `KeyError`. -/
def json_hutoma_objecter (fields : List (String × Json)) : Objected × Bool :=
  match lookupField fields "kind" with
  | some (.arr _) => (.typeErrorKind, false)
  | some (.obj _) => (.typeErrorKind, false)
  | some kv =>
    match kindLookup kv with
    | some cls =>
      match lookupField fields "data" with
      | some d => (.constructed cls d, false)
      | none => (.keyErrorData, false)
    | none =>
      match lookupField fields "json" with
      | some v => (.passthrough v, fields.length != 1)
      | none => (.rawEntry fields, false)
  | none =>
    match lookupField fields "json" with
    | some v => (.passthrough v, fields.length != 1)
    | none => (.rawEntry fields, false)

/-- Result of one Python attribute read: a value (only its truthiness is
relevant here), a raised `AttributeError`, or nontermination
(exhausting the interpreter recursion limit, a `RecursionError`). -/
inductive GRes where
  | val (b : Bool) : GRes
  | attrError : GRes
  | diverge : GRes
deriving DecidableEq

/-- Attribute resolution on a `HutomaObject`, fuel-indexed: the instance
dict is consulted first (its values are carried as truthiness), and on a
miss the `__getattr__` hook of `hutoma/objects.py` lines 41-47 runs.
The hook first compares the name against `__setstate__` (on a match the
condition short-circuits and the hook falls through to `raise
AttributeError`), then reads `self._has_fetched`, itself an attribute
read that goes through the same resolution.  A truthy `_has_fetched` falls through to `raise AttributeError`;
a falsy one calls `_populate(None, True)`, whose first action
(`_get_json_dict`, `hutoma/objects.py` line 89, reached via line 99)
reads `self.session` - another attribute read, because `__init__` stores
the session under the name `hutoma_session` (line 31) and never under
`session`.  The continuation after a successful `session` read (the
actual fetch) is abstracted to a plain value result: the theorems below
show it is unreachable, every reachable path having already diverged.
Fuel 0 is nontermination. -/
def getattrFuel (dict : List (String × Bool)) : Nat → String → GRes
  | 0, _ => .diverge
  | fuel + 1, attr =>
    match lookupField dict attr with
    | some b => .val b
    | none =>
      if attr = "__setstate__" then .attrError
      else
        match getattrFuel dict fuel "_has_fetched" with
        | .diverge => .diverge
        | .attrError => .attrError
        | .val true => .attrError
        | .val false =>
          match getattrFuel dict fuel "session" with
          | .diverge => .diverge
          | .attrError => .attrError
          | .val _ => .val true

/-- The instance dict of a `HutomaObject` while `__init__` is executing
line 34 (`hutoma/objects.py` lines 30-34), in the only way that line can
be reached: line 30 must have succeeded, which requires the caller to
have passed a truthy explicit `info_url` (no call site in the repository
does; see `hutomaObjectInit` below).  Then `_info_url`, `hutoma_session`,
`_underscore_names` and `_uniq` have been assigned, `_has_fetched` has
not (its right-hand side `_populate` is still running), and nothing is
ever stored under the name `session`.  The recorded booleans are the
truthiness of the stored values for the default `underscore_names=None`,
`uniq=None` construction. -/
def ctorDict : List (String × Bool) :=
  [("_info_url", true), ("hutoma_session", true),
   ("_underscore_names", false), ("_uniq", false)]

/-- `hutoma/__init__.py` lines 39-45, `Config.API_PATHS`: the fixed
endpoint path templates.  There is no `info` key. -/
def API_PATHS : List (String × String) :=
  [("ai_list", "api/v1/ai/"),
   ("ai", "api/v1/ai/\x7baiid\x7d"),
   ("folder", "api/v1/ai/\x7baiid\x7d/\x7bfolder\x7d"),
   ("chat", "api/v1/\x7baiid\x7d/chat"),
   ("speak", "api/v1/\x7baiid\x7d/speak"),
   ("training", "api/v1/\x7baiid\x7d/training")]

/-- `hutoma/__init__.py` lines 96-98, `Config.__getitem__`: resolve
`API_PATHS[key]` against the api url with the external
`requests.compat.urljoin` (abstracted as the parameter `urljoin`).  A
`none` result models the `KeyError` the dict lookup raises for a key
that is not in `API_PATHS`. -/
def configGetItem (urljoin : String → String → String) (api_url key : String) :
    Option String :=
  (lookupField API_PATHS key).map (urljoin api_url)

/-- Outcome of running `HutomaObject.__init__` (`hutoma/objects.py`
lines 21-34): a `KeyError` from `config[ 'info' ]` at line 30, a
`RecursionError` from the unbounded `__getattr__` recursion that the
`self.session` read in `_populate` triggers, a propagated
`AttributeError`, or a completed construction - the theorems below show
`done` is never reached. -/
inductive InitResult where
  | keyErrorInfo : InitResult
  | recursionError : InitResult
  | attrError : InitResult
  | done : InitResult
deriving DecidableEq

/-- `hutoma/objects.py` lines 21-34, `HutomaObject.__init__`, for any
subtype (they all delegate here).  Line 30 evaluates `info_url or
hutoma_session.config[ 'info' ]`: with no (or a falsy) `info_url` - the
case at every call site in the repository - the config lookup runs and
raises `KeyError` because `API_PATHS` has no `info` key, before any
instance attribute is assigned.  With a truthy explicit `info_url`,
lines 30-33 assign the four attributes of `ctorDict` (none of their
names is a substring of `AIID`, so `__setattr__` stores them directly),
and line 34 calls `_populate(json_dict, fetch)`, whose first action on
every path (line 101, or line 89 via line 99 when fetching) reads
`self.session` - an attribute never assigned under that name - so the
read resolves through `getattrFuel` on `ctorDict`.  `json_dict` and
`fetch` do not affect the outcome, since the `self.session` read comes
first. -/
def hutomaObjectInit (urljoin : String → String → String) (api_url : String)
    (info_url : Option String) (fuel : Nat) : InitResult :=
  match (match info_url with
         | some u => some u
         | none => configGetItem urljoin api_url "info") with
  | none => .keyErrorInfo
  | some _ =>
    match getattrFuel ctorDict fuel "session" with
    | .diverge => .recursionError
    | .attrError => .attrError
    | .val _ => .done

/-- `hutoma/objects.py` lines 16-19, `from_api_response`: the call
`cls(hutoma_session, json_dict=json_dict)`.  No `info_url` is passed,
so the outcome is that of `HutomaObject.__init__` with `info_url=None`,
whatever the subtype and payload: line 30 raises before `json_dict` is
ever consulted. -/
def from_api_response (urljoin : String → String → String) (api_url : String)
    (fuel : Nat) : InitResult :=
  hutomaObjectInit urljoin api_url none fuel

/-- Outcome of one `HutomaObject.__setattr__` call
(`hutoma/objects.py` lines 69-78): either `object.__setattr__` stores a
value, or the special-case arm `AI(self.session, value, fetch=False)`
at line 77 raises while being evaluated.  `wrapped` stands for the arm
completing and the reference being stored; the theorems below show it
is never produced. -/
inductive SetattrOutcome where
  | stored (a : Attr) : SetattrOutcome
  | wrapped (v : Json) : SetattrOutcome
  | keyErrorRaised : SetattrOutcome
  | attrErrorRaised : SetattrOutcome
  | recursionError : SetattrOutcome

/-- `hutoma/objects.py` lines 69-78, `HutomaObject.__setattr__`: when
the value is truthy and the attribute name is `in HUTOMA_KEYS` (a
substring of `AIID`), a boolean is stored unchanged and the string
`[deleted]` becomes a stored `None` (the `elif not value` arm is
unreachable under the outer truthiness test); any other value reaches
`AI(self.session, value, fetch=False)`: first `self.session` is read on
the object whose instance dict is `dict` - resolved by `getattrFuel`,
since the name is never assigned - and if that ever yielded a value the
`AI` construction itself would run with no `info_url`
(`hutomaObjectInit`).  Every other assignment stores the value
unchanged. -/
def hutomaSetattr (urljoin : String → String → String) (api_url : String)
    (dict : List (String × Bool)) (fuel : Nat) (name : String) (v : Json) :
    SetattrOutcome :=
  let wrapAttempt : SetattrOutcome :=
    match getattrFuel dict fuel "session" with
    | .diverge => .recursionError
    | .attrError => .attrErrorRaised
    | .val _ =>
      match hutomaObjectInit urljoin api_url none fuel with
      | .keyErrorInfo => .keyErrorRaised
      | .recursionError => .recursionError
      | .attrError => .attrErrorRaised
      | .done => .wrapped v
  if truthy v && strIn name HUTOMA_KEYS then
    match v with
    | .bool _ => .stored (.raw v)
    | .str s => if s = "[deleted]" then .stored .pyNone else wrapAttempt
    | _ => wrapAttempt
  else .stored (.raw v)

/-- The error classes of `hutoma/errors.py` that declare an
`ERROR_TYPE`: `BadUserKey` (line 178), `NoAIFound` (line 184) and
`RateLimitExceeded` (line 190). -/
inductive ExcClass where
  | badUserKey : ExcClass
  | noAIFound : ExcClass
  | rateLimitExceeded : ExcClass
deriving DecidableEq

/-- The declared `ERROR_TYPE` string of each class
(`hutoma/errors.py` lines 181, 187, 198). -/
def ERROR_TYPE : ExcClass → String
  | .badUserKey => "BAD_USER_KEY"
  | .noAIFound => "NO_AI_FOUND"
  | .rateLimitExceeded => "RATE_LIMIT"

/-- `hutoma/errors.py` lines 213-221, `_build_error_mapping`: the table
from `ERROR_TYPE` string to exception class, built by iterating over the
classes of the module that declare an `ERROR_TYPE` (`inspect.getmembers`
yields them alphabetically: `BadUserKey`, `NoAIFound`,
`RateLimitExceeded`; no two declare the same string). -/
def ERROR_MAPPING : List (String × ExcClass) :=
  [(ERROR_TYPE .badUserKey, .badUserKey),
   (ERROR_TYPE .noAIFound, .noAIFound),
   (ERROR_TYPE .rateLimitExceeded, .rateLimitExceeded)]

/-- A constructed `RateLimitExceeded` exception (`hutoma/errors.py`
lines 190-210): the `APIException` fields plus `sleep_time`. -/
structure RateLimitExc where
  error_type : String
  message : String
  field : String
  response : List (String × Json)
  sleep_time : Option Json

/-- `hutoma/errors.py` lines 200-210, `RateLimitExceeded.__init__`: the
parent constructor stores the four fields, then `sleep_time` is set to
`self.response[ 'ratelimit' ]`; a `none` here models the `KeyError`
raised when the response mapping lacks the key. -/
def mkRateLimitExceeded (error_type message field : String)
    (response : List (String × Json)) : RateLimitExc :=
  { error_type := error_type, message := message, field := field,
    response := response,
    sleep_time := lookupField response "ratelimit" }

/-- Helper for the objecter and setattr theorems: whether a JSON value
is a Python boolean. -/
def isBoolJson : Json → Bool
  | .bool _ => true
  | _ => false

/-- Helper: whether a JSON value is the string `[deleted]`. -/
def isDeletedStr : Json → Bool
  | .str s => s == "[deleted]"
  | _ => false

/-- An error returned by the status dispatcher carries the status it was
raised for. -/
theorem statusOf_raise (s : Nat) (e : HErr)
    (h : raise_response_exceptions s = .error e) : statusOf e = s := by
  unfold raise_response_exceptions at h
  split at h
  · cases h; rfl
  · split at h
    · cases h; rfl
    · split at h
      · cases h; rfl
      · cases h

/-- Dropping a matched run never lengthens a list. -/
theorem dropWhile_len_le (p : Char → Bool) (l : List Char) :
    (l.dropWhile p).length ≤ l.length := by
  induction l with
  | nil => simp [List.dropWhile]
  | cons c rest ih =>
    simp only [List.dropWhile]
    by_cases h : p c
    · simp [h]
      omega
    · simp [h]

/-- The first element surviving `dropWhile` of the non-semicolon run is
a semicolon. -/
theorem dropWhile_head_semi (l : List Char) :
    ∀ (d : Char) (rest2 : List Char),
      l.dropWhile (· ≠ ';') = d :: rest2 → d = ';' := by
  induction l with
  | nil =>
    intro d r h
    simp [List.dropWhile] at h
  | cons c rest ih =>
    intro d r h
    rw [List.dropWhile_cons] at h
    by_cases hc : c = ';'
    · rw [if_neg (by simp [hc])] at h
      injection h with h1 h2
      rw [← h1, hc]
    · rw [if_pos (by simp [hc])] at h
      exact ih d r h

/-- The non-semicolon run taken from `name ++ ';' :: post` is `name`
when `name` has no semicolon. -/
theorem takeWhile_entity (name post : List Char) (h : ';' ∉ name) :
    (name ++ ';' :: post).takeWhile (· ≠ ';') = name := by
  induction name with
  | nil => simp [List.takeWhile]
  | cons c rest ih =>
    have hc : c ≠ ';' := fun hce => h (hce ▸ List.mem_cons_self c rest)
    have hr : ';' ∉ rest := fun hm => h (List.mem_cons_of_mem c hm)
    rw [List.cons_append, List.takeWhile_cons, if_pos (by simp [hc]), ih hr]

/-- Dropping the non-semicolon run from `name ++ ';' :: post` leaves
`';' :: post` when `name` has no semicolon. -/
theorem dropWhile_entity (name post : List Char) (h : ';' ∉ name) :
    (name ++ ';' :: post).dropWhile (· ≠ ';') = ';' :: post := by
  induction name with
  | nil => simp [List.dropWhile]
  | cons c rest ih =>
    have hc : c ≠ ';' := fun hce => h (hce ▸ List.mem_cons_self c rest)
    have hr : ';' ∉ rest := fun hm => h (List.mem_cons_of_mem c hm)
    rw [List.cons_append, List.dropWhile_cons, if_pos (by simp [hc]), ih hr]

/-- The decoder does not depend on the fuel, as long as the fuel covers
the length of the text. -/
theorem decodeEntitiesFuel_stable (table : List (String × Nat)) :
    ∀ (f g : Nat) (l : List Char), l.length ≤ f → l.length ≤ g →
      decodeEntitiesFuel table f l = decodeEntitiesFuel table g l := by
  intro f
  induction f with
  | zero =>
    intro g l hf hg
    have hnil : l = [] := List.eq_nil_of_length_eq_zero (Nat.le_zero.mp hf)
    subst hnil
    cases g <;> rfl
  | succ n ih =>
    intro g l hf hg
    cases l with
    | nil => cases g <;> rfl
    | cons c rest =>
      cases g with
      | zero => simp at hg
      | succ m =>
        have hrf : rest.length ≤ n := by
          simp only [List.length_cons] at hf
          omega
        have hrm : rest.length ≤ m := by
          simp only [List.length_cons] at hg
          omega
        by_cases hc : c = '&'
        · subst hc
          cases hdw : rest.dropWhile (· ≠ ';') with
          | nil =>
            simp only [decodeEntitiesFuel, hdw]
            rfl
          | cons d rest2 =>
            have hd := dropWhile_head_semi rest d rest2 hdw
            subst hd
            have hr2 : rest2.length ≤ rest.length := by
              have h1 := dropWhile_len_le (· ≠ ';') rest
              rw [hdw] at h1
              simp only [List.length_cons] at h1
              omega
            cases htw : rest.takeWhile (· ≠ ';') with
            | nil =>
              simp only [decodeEntitiesFuel, hdw, htw, List.isEmpty,
                         ih m rest hrf hrm]
              rfl
            | cons b bs =>
              cases hlk : lookupField table (String.mk (b :: bs)) with
              | none =>
                simp only [decodeEntitiesFuel, hdw, htw, List.isEmpty, hlk]
                rfl
              | some cp =>
                simp only [decodeEntitiesFuel, hdw, htw, List.isEmpty, hlk,
                           ih m rest2 (le_trans hr2 hrf) (le_trans hr2 hrm)]
                rfl
        · simp only [decodeEntitiesFuel, if_neg hc, ih m rest hrf hrm]

/-- The decoder leaves a text unchanged when the regex finds no match in
it. -/
theorem decode_no_pattern (table : List (String × Nat)) :
    ∀ (f : Nat) (l : List Char), l.length ≤ f → hasEntityPattern l = false →
      decodeEntitiesFuel table f l = .ok l := by
  intro f
  induction f with
  | zero =>
    intro l hf _
    have hnil : l = [] := List.eq_nil_of_length_eq_zero (Nat.le_zero.mp hf)
    subst hnil
    rfl
  | succ n ih =>
    intro l hf hp
    cases l with
    | nil => rfl
    | cons c rest =>
      have hrf : rest.length ≤ n := by
        simp only [List.length_cons] at hf
        omega
      by_cases hc : c = '&'
      · subst hc
        cases hdw : rest.dropWhile (· ≠ ';') with
        | nil =>
          simp only [decodeEntitiesFuel, hdw]
          rfl
        | cons d rest2 =>
          have hd := dropWhile_head_semi rest d rest2 hdw
          subst hd
          have hdw2 : List.dropWhile (fun x => !decide (x = ';')) rest = ';' :: rest2 := by
            simpa using hdw
          cases htw : rest.takeWhile (· ≠ ';') with
          | nil =>
            have htw2 : List.takeWhile (fun x => !decide (x = ';')) rest = [] := by
              simpa using htw
            have hp2 : hasEntityPattern rest = false := by
              simpa [hasEntityPattern, hdw2, htw2] using hp
            simp only [decodeEntitiesFuel, hdw, htw, List.isEmpty,
                       ih rest hrf hp2, Except.map]
            rfl
          | cons b bs =>
            exfalso
            have htw2 : List.takeWhile (fun x => !decide (x = ';')) rest = b :: bs := by
              simpa using htw
            simp [hasEntityPattern, hdw2, htw2] at hp
      · have hp2 : hasEntityPattern rest = false := by
          simpa [hasEntityPattern, if_neg hc] using hp
        simp only [decodeEntitiesFuel, if_neg hc, ih rest hrf hp2, Except.map]

/-- The first entity of a text decodes compositionally: an
ampersand-free prelude is copied, a group found in the table is replaced
by its code point, and decoding continues after the semicolon. -/
theorem decode_first_entity (table : List (String × Nat)) :
    ∀ (f : Nat) (pre : List Char), '&' ∉ pre →
      ∀ (name post : List Char) (cp : Nat), ';' ∉ name → name ≠ [] →
      lookupField table (String.mk name) = some cp →
      (pre ++ '&' :: name ++ ';' :: post).length ≤ f →
      decodeEntitiesFuel table f (pre ++ '&' :: name ++ ';' :: post)
        = (decodeEntities table post).map (fun t => pre ++ Char.ofNat cp :: t) := by
  intro f
  induction f with
  | zero =>
    intro pre hpre name post cp hname hne hcp hlen
    exfalso
    simp [List.length_append] at hlen
  | succ n ih =>
    intro pre hpre name post cp hname hne hcp hlen
    cases pre with
    | nil =>
      have hbe : name.isEmpty = false := by
        cases name
        · exact absurd rfl hne
        · rfl
      have hpl : post.length ≤ n := by
        simp [List.length_append] at hlen
        omega
      have hst := decodeEntitiesFuel_stable table n post.length post hpl (le_refl _)
      rw [List.nil_append, List.cons_append]
      simp only [decodeEntitiesFuel, dropWhile_entity name post hname,
                 takeWhile_entity name post hname, hbe, hcp, hst]
      rfl
    | cons c pre2 =>
      have hc : c ≠ '&' := fun hce => hpre (hce ▸ List.mem_cons_self c pre2)
      have hpre2 : '&' ∉ pre2 := fun hm => hpre (List.mem_cons_of_mem c hm)
      have hlen2 : (pre2 ++ '&' :: name ++ ';' :: post).length ≤ n := by
        simp [List.length_append] at hlen ⊢
        omega
      have hrec := ih pre2 hpre2 name post cp hname hne hcp hlen2
      rw [List.cons_append, List.cons_append]
      simp only [decodeEntitiesFuel, if_neg hc, hrec]
      cases hX : decodeEntities table post with
      | error e => simp only [hX, Except.map]
      | ok t =>
        simp only [hX, Except.map, List.cons_append]

/-- A group absent from the table aborts the whole substitution with a
`KeyError`, whatever follows the semicolon. -/
theorem decode_unknown_group (table : List (String × Nat)) :
    ∀ (f : Nat) (pre : List Char), '&' ∉ pre →
      ∀ (name post : List Char), ';' ∉ name → name ≠ [] →
      lookupField table (String.mk name) = none →
      (pre ++ '&' :: name ++ ';' :: post).length ≤ f →
      decodeEntitiesFuel table f (pre ++ '&' :: name ++ ';' :: post) = .error () := by
  intro f
  induction f with
  | zero =>
    intro pre hpre name post hname hne hcp hlen
    exfalso
    simp [List.length_append] at hlen
  | succ n ih =>
    intro pre hpre name post hname hne hcp hlen
    cases pre with
    | nil =>
      have hbe : name.isEmpty = false := by
        cases name
        · exact absurd rfl hne
        · rfl
      rw [List.nil_append, List.cons_append]
      simp only [decodeEntitiesFuel, dropWhile_entity name post hname,
                 takeWhile_entity name post hname, hbe, hcp]
      rfl
    | cons c pre2 =>
      have hc : c ≠ '&' := fun hce => hpre (hce ▸ List.mem_cons_self c pre2)
      have hpre2 : '&' ∉ pre2 := fun hm => hpre (List.mem_cons_of_mem c hm)
      have hlen2 : (pre2 ++ '&' :: name ++ ';' :: post).length ≤ n := by
        simp [List.length_append] at hlen ⊢
        omega
      rw [List.cons_append, List.cons_append]
      simp only [decodeEntitiesFuel, if_neg hc,
                 ih pre2 hpre2 name post hname hne hcp hlen2, Except.map]

/-- Every key of the entity table is a plain entity name: a group
beginning with the numeric-reference marker is never found. -/
theorem hash_name_not_in_table (name : List Char) (h : name.head? = some '#') :
    lookupField name2codepoint (String.mk name) = none := by
  cases name with
  | nil => simp at h
  | cons c rest =>
    have hc : c = '#' := by simpa using h
    subst hc
    have key_ne : ∀ k : String, k.data.head? ≠ some '#' → ¬(k = String.mk ('#' :: rest)) := by
      intro k hk he
      apply hk
      rw [he]
      rfl
    simp only [name2codepoint, lookupField]
    rw [if_neg (key_ne "amp" (by decide)), if_neg (key_ne "lt" (by decide)),
        if_neg (key_ne "gt" (by decide)), if_neg (key_ne "quot" (by decide)),
        if_neg (key_ne "nbsp" (by decide)), if_neg (key_ne "copy" (by decide)),
        if_neg (key_ne "reg" (by decide)), if_neg (key_ne "eacute" (by decide)),
        if_neg (key_ne "agrave" (by decide)), if_neg (key_ne "mdash" (by decide)),
        if_neg (key_ne "hellip" (by decide))]

/-- One step of attribute resolution, as an equation usable for a single
rewrite. -/
theorem getattrFuel_step (dict : List (String × Bool)) (fuel : Nat) (attr : String) :
    getattrFuel dict (fuel + 1) attr =
      match lookupField dict attr with
      | some b => .val b
      | none =>
        if attr = "__setstate__" then .attrError
        else
          match getattrFuel dict fuel "_has_fetched" with
          | .diverge => .diverge
          | .attrError => .attrError
          | .val true => .attrError
          | .val false =>
            match getattrFuel dict fuel "session" with
            | .diverge => .diverge
            | .attrError => .attrError
            | .val _ => .val true := rfl

/-- Reading `_has_fetched` on an object whose dict lacks it recurses
forever: the hook re-reads the same missing attribute. -/
theorem getattr_hf_none_diverges (dict : List (String × Bool))
    (hf : lookupField dict "_has_fetched" = none) :
    ∀ fuel : Nat, getattrFuel dict fuel "_has_fetched" = .diverge := by
  intro fuel
  induction fuel with
  | zero => rfl
  | succ n ih =>
    rw [getattrFuel_step, hf, ih]
    rfl

/-- Reading `session` during construction (neither `session` nor
`_has_fetched` in the dict) recurses forever. -/
theorem getattr_session_none_diverges (dict : List (String × Bool))
    (hs : lookupField dict "session" = none)
    (hf : lookupField dict "_has_fetched" = none) :
    ∀ fuel : Nat, getattrFuel dict fuel "session" = .diverge := by
  intro fuel
  cases fuel with
  | zero => rfl
  | succ n =>
    rw [getattrFuel_step, hs, getattr_hf_none_diverges dict hf n]
    rfl

/-- Reading `session` on a populated object (`_has_fetched` truthy, no
`session` binding) raises `AttributeError`. -/
theorem getattr_session_hf_true (dict : List (String × Bool)) (n : Nat)
    (hs : lookupField dict "session" = none)
    (hf : lookupField dict "_has_fetched" = some true) :
    getattrFuel dict (n + 2) "session" = .attrError := by
  have h1 : getattrFuel dict (n + 1) "_has_fetched" = .val true := by
    rw [getattrFuel_step, hf]
  show getattrFuel dict (n + 1 + 1) "session" = .attrError
  rw [getattrFuel_step, hs, h1]
  rfl

/-- Reading `session` on an unpopulated object (`_has_fetched` falsy, no
`session` binding) recurses forever: `_populate` immediately re-reads
`session`. -/
theorem getattr_session_hf_false (dict : List (String × Bool))
    (hs : lookupField dict "session" = none)
    (hf : lookupField dict "_has_fetched" = some false) :
    ∀ fuel : Nat, getattrFuel dict fuel "session" = .diverge := by
  intro fuel
  induction fuel with
  | zero => rfl
  | succ n ih =>
    cases n with
    | zero =>
      rw [getattrFuel_step, hs]
      rfl
    | succ m =>
      have h1 : getattrFuel dict (m + 1) "_has_fetched" = .val false := by
        rw [getattrFuel_step, hf]
      rw [getattrFuel_step, hs, h1, ih]
      rfl

/-- Without an explicit `info_url`, `HutomaObject.__init__` raises
`KeyError` at line 30: `API_PATHS` has no `info` key. -/
theorem hutomaObjectInit_none (urljoin : String → String → String)
    (api_url : String) (fuel : Nat) :
    hutomaObjectInit urljoin api_url none fuel = .keyErrorInfo := by
  have h : lookupField API_PATHS "info" = none := by decide
  simp [hutomaObjectInit, configGetItem, h]

/-- With an explicit `info_url`, construction reaches line 34 and the
`self.session` read of `_populate` recurses forever. -/
theorem hutomaObjectInit_some (urljoin : String → String → String)
    (api_url info_url : String) (fuel : Nat) :
    hutomaObjectInit urljoin api_url (some info_url) fuel = .recursionError := by
  have hd := getattr_session_none_diverges ctorDict (by decide) (by decide) fuel
  simp [hutomaObjectInit, hd]

/- ------------------------------------------------------------------ -/
/- Claim theorems                                                      -/
/- ------------------------------------------------------------------ -/

/-- Claim C5, counterexample: `normalize_url` is not idempotent.  On
`a//` one application strips a single slash, leaving `a/`, and a second
application strips another. -/
theorem normalize_url_not_idempotent :
    normalize_url (normalize_url "a//") ≠ normalize_url "a//" := by decide

/-- Claim C5 (amended): `normalize_url` strips at most one trailing
`.json` and then at most one trailing slash per application, so it is
idempotent exactly on inputs whose normalized form ends in neither
`.json` nor a slash (on others, such as `a//`, a second application
strips further); and the normalization of `https://x/y.json`, of
`https://x/y` and of `https://x/y/` coincide. -/
theorem normalize_url_idempotent_unless_stripped :
    (∀ u : String, endsWithPy (normalize_url u) ".json" = false →
      endsWithPy (normalize_url u) "/" = false →
      normalize_url (normalize_url u) = normalize_url u) ∧
    (normalize_url "https://x/y.json" = normalize_url "https://x/y" ∧
     normalize_url "https://x/y" = normalize_url "https://x/y/") := by
  constructor
  · intro u h1 h2
    generalize hv : normalize_url u = v at h1 h2 ⊢
    unfold normalize_url
    simp [h1, h2]
  · exact ⟨by decide, by decide⟩

/-- Witness for the amended C5 theorem at the concrete url
`https://x/y`. -/
theorem normalize_url_idempotent_witness :
    normalize_url (normalize_url "https://x/y") = normalize_url "https://x/y" :=
  normalize_url_idempotent_unless_stripped.1 "https://x/y" (by decide) (by decide)

/-- Claim C2, counterexample: status 303 is not a 2xx status, yet
`_raise_response_exceptions` raises nothing for it, because the source
delegates every status other than 403 and 404 to
`response.raise_for_status()`, which only raises for 400-599. -/
theorem status_mapping_counterexample :
    raise_response_exceptions 303 = .ok 303 ∧ ¬ (200 ≤ 303 ∧ 303 < 300) := by
  decide

/-- Claim C2 (amended): the dispatcher maps 403 to `Forbidden`, 404 to
`NotFound`, and every *other status in 400-599* to a generic
`HTTPException` wrapping the raw response; every status outside 400-599
(all 2xx, and also any 1xx or 3xx status that reaches the dispatcher,
such as 303) raises no exception. -/
theorem status_mapping :
    raise_response_exceptions 403 = .error (.forbidden 403) ∧
    raise_response_exceptions 404 = .error (.notFound 404) ∧
    (∀ s : Nat, 400 ≤ s → s < 600 → s ≠ 403 → s ≠ 404 →
      raise_response_exceptions s = .error (.httpError s)) ∧
    (∀ s : Nat, s < 400 ∨ 600 ≤ s → raise_response_exceptions s = .ok s) := by
  refine ⟨by decide, by decide, ?_, ?_⟩
  · intro s h1 h2 h3 h4
    unfold raise_response_exceptions
    rw [if_neg h3, if_neg h4, if_pos ⟨h1, h2⟩]
  · intro s h
    unfold raise_response_exceptions
    rcases h with h | h
    · rw [if_neg (by omega), if_neg (by omega), if_neg (by omega)]
    · rw [if_neg (by omega), if_neg (by omega), if_neg (by omega)]

/-- Witness for the amended C2 theorem at statuses 500 and 200. -/
theorem status_mapping_witness :
    raise_response_exceptions 500 = .error (.httpError 500) ∧
    raise_response_exceptions 200 = .ok 200 :=
  ⟨status_mapping.2.2.1 500 (by decide) (by decide) (by decide) (by decide),
   status_mapping.2.2.2 200 (Or.inl (by decide))⟩

/-- Claim C6: when the resolved redirect target equals the url that
produced it, the very next loop iteration hits `assert url !=
request.url` and raises `AssertionError`, for every remaining fuel - in
particular the loop never runs forever (never exhausts any fuel) on such
a self-redirect. -/
theorem redirect_loop_guard :
    ∀ (urljoin : String → String → String) (respond : String → RResponse)
      (fuel : Nat) (url : String),
      raise_redirect_exceptions urljoin (respond url) = some url →
      handle_redirect urljoin respond (fuel + 1) url = .assertionFailed := by
  intro urljoin respond fuel url h
  simp [handle_redirect, h]

/-- Witness for C6: a server that 301-redirects `https://a` to itself. -/
theorem redirect_loop_guard_witness :
    handle_redirect (fun _ loc => loc) (fun u => ⟨301, u, "https://a"⟩)
      5 "https://a" = .assertionFailed :=
  redirect_loop_guard (fun _ loc => loc) (fun u => ⟨301, u, "https://a"⟩)
    4 "https://a" (by decide)

/-- Claim C9: a `RateLimitExceeded` built from a response mapping whose
`ratelimit` key holds 30 exposes `sleep_time = 30`, and the error table
built by `_build_error_mapping` sends each declared `ERROR_TYPE` string
to its class. -/
theorem rate_limit_error :
    (∀ (et m f : String) (resp : List (String × Json)),
      lookupField resp "ratelimit" = some (.num 30) →
      (mkRateLimitExceeded et m f resp).sleep_time = some (.num 30)) ∧
    (∀ c : ExcClass, lookupField ERROR_MAPPING (ERROR_TYPE c) = some c) := by
  constructor
  · intro et m f resp h
    simp [mkRateLimitExceeded, h]
  · intro c
    cases c <;> rfl

/-- Witness for C9 at a concrete rate-limit payload. -/
theorem rate_limit_error_witness :
    (mkRateLimitExceeded "RATE_LIMIT" "too fast" ""
      [("ratelimit", .num 30), ("message", .str "too fast")]).sleep_time
      = some (.num 30) :=
  rate_limit_error.1 "RATE_LIMIT" "too fast" ""
    [("ratelimit", .num 30), ("message", .str "too fast")] (by rfl)

/-- One retry-loop step on a response that raises nothing: the loop
returns the response. -/
theorem loop_step_ok (respond : Nat → Nat) (i n s : Nat)
    (h : raise_response_exceptions (respond i) = .ok s) :
    runRequestLoop respond i (n + 1) = .ok s := by
  simp [runRequestLoop, h]

/-- One retry-loop step on a retryable error with budget left: the loop
moves to the next attempt. -/
theorem loop_step_retry (respond : Nat → Nat) (i n : Nat) (e : HErr)
    (h : raise_response_exceptions (respond i) = .error e)
    (hmem : statusOf e ∈ RETRY_CODES) (hn : n ≠ 0) :
    runRequestLoop respond i (n + 1) = runRequestLoop respond (i + 1) n := by
  simp [runRequestLoop, h, hmem, hn]

/-- One retry-loop step on an error that is not retryable, or with the
budget exhausted: the loop re-raises. -/
theorem loop_step_raise (respond : Nat → Nat) (i n : Nat) (e : HErr)
    (h : raise_response_exceptions (respond i) = .error e)
    (hcond : statusOf e ∉ RETRY_CODES ∨ n = 0) :
    runRequestLoop respond i (n + 1) = .error e := by
  rcases hcond with hc | hc
  · simp [runRequestLoop, h, hc]
  · subst hc
    simp [runRequestLoop, h]

/-- Claim C1: with `retry_on_error` (budget 3) a 503, 503, 200 sequence
of attempt outcomes succeeds on the third attempt; the same first
response with budget 1 raises immediately; an error status outside
`RETRY_CODES` makes the first attempt outcome final (no retry is
attempted, the exception of the first dispatch propagates); and a
retryable first error with budget 3 re-enters the loop on the next
attempt with budget 2 - the prepared request is built once, outside the
loop, so every attempt reuses it. -/
theorem retry_policy :
    (∀ respond : Nat → Nat, respond 0 = 503 → respond 1 = 503 → respond 2 = 200 →
      runRequest respond true = .ok 200) ∧
    (∀ respond : Nat → Nat, respond 0 = 503 →
      runRequest respond false = .error (.httpError 503)) ∧
    (∀ respond : Nat → Nat, respond 0 ∉ RETRY_CODES →
      runRequest respond true = raise_response_exceptions (respond 0)) ∧
    (∀ (respond : Nat → Nat) (e : HErr),
      raise_response_exceptions (respond 0) = .error e →
      statusOf e ∈ RETRY_CODES →
      runRequest respond true = runRequestLoop respond 1 2) := by
  have e503 : raise_response_exceptions 503 = .error (.httpError 503) := by decide
  have e200 : raise_response_exceptions 200 = .ok 200 := by decide
  refine ⟨?_, ?_, ?_, ?_⟩
  · intro respond h0 h1 h2
    calc runRequest respond true
        = runRequestLoop respond 1 2 :=
          loop_step_retry respond 0 2 (.httpError 503)
            (by rw [h0]; exact e503) (by decide) (by decide)
      _ = runRequestLoop respond 2 1 :=
          loop_step_retry respond 1 1 (.httpError 503)
            (by rw [h1]; exact e503) (by decide) (by decide)
      _ = .ok 200 :=
          loop_step_ok respond 2 0 200 (by rw [h2]; exact e200)
  · intro respond h0
    exact loop_step_raise respond 0 0 (.httpError 503)
      (by rw [h0]; exact e503) (Or.inr rfl)
  · intro respond h0
    cases h : raise_response_exceptions (respond 0) with
    | ok s => exact loop_step_ok respond 0 2 s h
    | error e =>
      have hs := statusOf_raise (respond 0) e h
      exact loop_step_raise respond 0 2 e h (Or.inl (by rw [hs]; exact h0))
  · intro respond e h hmem
    exact loop_step_retry respond 0 2 e h hmem (by decide)

/-- Witness for C1 at concrete attempt sequences. -/
theorem retry_policy_witness :
    runRequest (fun i => if i = 0 then 503 else if i = 1 then 503 else 200) true
      = .ok 200 ∧
    runRequest (fun i => if i = 0 then 503 else if i = 1 then 503 else 200) false
      = .error (.httpError 503) ∧
    runRequest (fun _ => 500) true = raise_response_exceptions 500 :=
  ⟨retry_policy.1 (fun i => if i = 0 then 503 else if i = 1 then 503 else 200)
      (by decide) (by decide) (by decide),
   retry_policy.2.1 (fun i => if i = 0 then 503 else if i = 1 then 503 else 200)
      (by decide),
   retry_policy.2.2.1 (fun _ => 500) (by decide)⟩

/-- Claim C3 (the code, not the claim, is at fault): `HutomaObject`
construction never succeeds, so the lazy fetch-once behaviour is
unreachable.  Every call site of the repository passes no `info_url`, so
line 30 looks up the missing `info` key of `API_PATHS` and raises
`KeyError` before a single attribute is assigned - in particular
`AI(session, json_dict=None, fetch=False)` dies there.  Even a
hypothetical caller passing an explicit `info_url` gets no further:
line 34 calls `_populate`, whose read of the never-assigned
`self.session` recurses without bound (a `RecursionError`), whatever
recursion budget the interpreter grants. -/
theorem construction_always_fails :
    (∀ (urljoin : String → String → String) (api_url : String) (fuel : Nat),
      hutomaObjectInit urljoin api_url none fuel = .keyErrorInfo) ∧
    (∀ (urljoin : String → String → String) (api_url info_url : String) (fuel : Nat),
      hutomaObjectInit urljoin api_url (some info_url) fuel = .recursionError) :=
  ⟨hutomaObjectInit_none, hutomaObjectInit_some⟩

/-- Claim C4, counterexample: an entry with an unrecognized kind, a
`json` key and an extra sibling key.  The source warns but returns the
*inner* `json` value, not the raw mapping the claim promises. -/
theorem objecter_counterexample :
    json_hutoma_objecter [("kind", .str "zzz"), ("json", .num 5), ("extra", .num 1)]
        = (.passthrough (.num 5), true) ∧
    Objected.passthrough (.num 5)
        ≠ .rawEntry [("kind", .str "zzz"), ("json", .num 5), ("extra", .num 1)] := by
  exact ⟨rfl, by simp⟩

/-- Claim C4 (amended): a known kind makes the materializer call the
registered subtype, feeding it the `data` field of the entry - a call
that, like every `HutomaObject` construction, raises `KeyError` for the
missing `info` path before producing an object; an unrecognized or
missing kind with a `json` key returns the inner `json` value - warning
exactly when the entry has sibling keys besides it - and only an
unrecognized or missing kind *without* a `json` key returns the raw
entry, with no warning. -/
theorem objecter_dispatch :
    (∀ (fields : List (String × Json)) (kv : String) (cls : KindClass) (d : Json),
      lookupField fields "kind" = some (.str kv) →
      lookupField by_kind kv = some cls →
      lookupField fields "data" = some d →
      json_hutoma_objecter fields = (.constructed cls d, false)) ∧
    (json_hutoma_objecter [("kind", .str "ai"), ("data", .obj [("id", .str "abc")])]
        = (.constructed .ai (.obj [("id", .str "abc")]), false)) ∧
    (∀ (urljoin : String → String → String) (api_url : String) (fuel : Nat),
      from_api_response urljoin api_url fuel = .keyErrorInfo) ∧
    (∀ (fields : List (String × Json)) (kv : String) (v : Json),
      lookupField fields "kind" = some (.str kv) →
      lookupField by_kind kv = none →
      lookupField fields "json" = some v →
      json_hutoma_objecter fields = (.passthrough v, fields.length != 1)) ∧
    (∀ (fields : List (String × Json)) (v : Json),
      lookupField fields "kind" = none →
      lookupField fields "json" = some v →
      json_hutoma_objecter fields = (.passthrough v, fields.length != 1)) ∧
    (∀ (fields : List (String × Json)) (kv : String),
      lookupField fields "kind" = some (.str kv) →
      lookupField by_kind kv = none →
      lookupField fields "json" = none →
      json_hutoma_objecter fields = (.rawEntry fields, false)) ∧
    (∀ fields : List (String × Json),
      lookupField fields "kind" = none →
      lookupField fields "json" = none →
      json_hutoma_objecter fields = (.rawEntry fields, false)) := by
  refine ⟨?_, rfl, ?_, ?_, ?_, ?_, ?_⟩
  · intro fields kv cls d hk hb hd
    simp [json_hutoma_objecter, hk, kindLookup, hb, hd]
  · intro u a fuel
    exact hutomaObjectInit_none u a fuel
  · intro fields kv v hk hb hj
    simp [json_hutoma_objecter, hk, kindLookup, hb, hj]
  · intro fields v hk hj
    simp [json_hutoma_objecter, hk, hj]
  · intro fields kv hk hb hj
    simp [json_hutoma_objecter, hk, kindLookup, hb, hj]
  · intro fields hk hj
    simp [json_hutoma_objecter, hk, hj]

/-- Witness for the amended C4 theorem at concrete entries. -/
theorem objecter_dispatch_witness :
    json_hutoma_objecter [("kind", .str "folder"), ("data", .num 7)]
        = (.constructed .folder (.num 7), false) ∧
    from_api_response (fun _ loc => loc) "https://api.hutoma.com" 9 = .keyErrorInfo ∧
    json_hutoma_objecter [("json", .num 9)] = (.passthrough (.num 9), false) :=
  ⟨objecter_dispatch.1 [("kind", .str "folder"), ("data", .num 7)] "folder"
      .folder (.num 7) rfl rfl rfl,
   objecter_dispatch.2.2.1 (fun _ loc => loc) "https://api.hutoma.com" 9,
   objecter_dispatch.2.2.2.2.1 [("json", .num 9)] (.num 9) rfl rfl⟩

/-- Claim C7 (the code, not the claim, is at fault): fullname-based
equality is unreachable program behaviour.  No `HutomaObject` is ever
materialized (construction never completes), and the `fullname` property
that `__eq__` evaluates reads `self.session.config.by_object`
(`hutoma/objects.py` line 129) on an object whose dict never binds
`session` - `__init__` stores the session only as `hutoma_session` - so
that read raises `AttributeError` on a populated object (`_has_fetched`
truthy) and recurses forever on an unpopulated one.  Equality defined
solely by equal fullname is the evident intent of lines 36-39 and
121-130.  (Under that intent a further caveat would surface: the kind
strings `ai` and `ai_list` make the fullnames of an `AI` with id
`list_7` and an `AIList` with id `7` coincide; this is unobservable in
the program as written.) -/
theorem object_equality_unreachable :
    (∀ (urljoin : String → String → String) (api_url : String) (fuel : Nat),
      hutomaObjectInit urljoin api_url none fuel ≠ .done) ∧
    (∀ (dict : List (String × Bool)) (n : Nat),
      lookupField dict "session" = none →
      lookupField dict "_has_fetched" = some true →
      getattrFuel dict (n + 2) "session" = .attrError) ∧
    (∀ (dict : List (String × Bool)) (fuel : Nat),
      lookupField dict "session" = none →
      lookupField dict "_has_fetched" = some false →
      getattrFuel dict fuel "session" = .diverge) := by
  refine ⟨?_, ?_, ?_⟩
  · intro u a fuel h
    rw [hutomaObjectInit_none] at h
    exact InitResult.noConfusion h
  · intro dict n hs hf
    exact getattr_session_hf_true dict n hs hf
  · intro dict fuel hs hf
    exact getattr_session_hf_false dict hs hf fuel

/-- Witness for the C7 theorem at concrete object states. -/
theorem object_equality_unreachable_witness :
    getattrFuel [("_has_fetched", true)] 2 "session" = .attrError ∧
    getattrFuel [("_has_fetched", false)] 7 "session" = .diverge :=
  ⟨object_equality_unreachable.2.1 [("_has_fetched", true)] 0 (by decide) (by decide),
   object_equality_unreachable.2.2 [("_has_fetched", false)] 7 (by decide) (by decide)⟩

/-- Claim C8, counterexample: the decoder is built on `name2codepoint`,
a table of *named* entities only, so the numeric entity in `x&#65;`
reaches `decode` as the group `#65`, is absent from the table, and
raises a `KeyError` - the claim instead promises the replacement `xA`. -/
theorem entity_decoding_counterexample :
    decodeEntities name2codepoint (String.toList "x&#65;") = .error () ∧
    (Except.error () : Except Unit (List Char)) ≠ .ok (String.toList "xA") := by
  exact ⟨by decide, by decide⟩

/-- Claim C8 (amended): on a successful request without `raw_response`,
any text in which the regex finds no ampersand-group-semicolon match is
returned unchanged; every occurrence of a named entity whose name is in
the entity table is replaced by its Unicode code point (an
ampersand-free prelude is copied and decoding continues after the
semicolon, so successive entities are all replaced); and any
ampersand-semicolon group absent from the table - every numeric `&#...;`
reference, and any unknown name - raises an uncaught `KeyError` instead
of being decoded or passed through.  With `raw_response` requested the
unparsed response is returned. -/
theorem entity_decoding :
    (∀ l : List Char, hasEntityPattern l = false →
      decodeEntities name2codepoint l = .ok l) ∧
    (∀ (pre name post : List Char) (cp : Nat),
      '&' ∉ pre → ';' ∉ name → name ≠ [] →
      lookupField name2codepoint (String.mk name) = some cp →
      decodeEntities name2codepoint (pre ++ '&' :: name ++ ';' :: post)
        = (decodeEntities name2codepoint post).map (fun t => pre ++ Char.ofNat cp :: t)) ∧
    (∀ (pre name post : List Char),
      '&' ∉ pre → ';' ∉ name → name ≠ [] →
      lookupField name2codepoint (String.mk name) = none →
      decodeEntities name2codepoint (pre ++ '&' :: name ++ ';' :: post) = .error ()) ∧
    (∀ (pre body post : List Char),
      '&' ∉ pre → ';' ∉ body → body.head? = some '#' →
      decodeEntities name2codepoint (pre ++ '&' :: body ++ ';' :: post) = .error ()) ∧
    (decodeEntities name2codepoint (String.toList "a&amp;b&lt;c")
        = .ok (String.toList "a&b<c")) ∧
    (∀ (status : Nat) (text : List Char),
      successReturn true status text = .ok (.raw status text)) := by
  refine ⟨?_, ?_, ?_, ?_, by decide, fun status text => rfl⟩
  · intro l hp
    exact decode_no_pattern name2codepoint l.length l (le_refl _) hp
  · intro pre name post cp hpre hname hne hcp
    exact decode_first_entity name2codepoint _ pre hpre name post cp hname hne hcp
      (le_refl _)
  · intro pre name post hpre hname hne hcp
    exact decode_unknown_group name2codepoint _ pre hpre name post hname hne hcp
      (le_refl _)
  · intro pre body post hpre hsemi hhead
    have hne : body ≠ [] := by
      cases body
      · simp at hhead
      · exact List.cons_ne_nil _ _
    exact decode_unknown_group name2codepoint _ pre hpre body post hsemi hne
      (hash_name_not_in_table body hhead) (le_refl _)

/-- Witness for the amended C8 theorem: an unmatched ampersand is kept,
and a named entity in a concrete context is replaced compositionally. -/
theorem entity_decoding_witness :
    decodeEntities name2codepoint (String.toList "a&b") =
      .ok (String.toList "a&b") ∧
    decodeEntities name2codepoint (['x'] ++ '&' :: String.toList "amp" ++ ';' :: ['y'])
      = (decodeEntities name2codepoint ['y']).map (fun t => ['x'] ++ Char.ofNat 38 :: t) :=
  ⟨entity_decoding.1 (String.toList "a&b") (by decide),
   entity_decoding.2.1 ['x'] (String.toList "amp") ['y'] 38
      (by decide) (by decide) (by decide) (by decide)⟩

/-- Claim C10, counterexample: assigning the truthy string `u1` to the
attribute `AIID` on a populated-looking object does not store a wrapped
`AI` reference: the special-case arm evaluates `AI(self.session, value,
fetch=False)`, whose `self.session` read raises `AttributeError` - no
`session` attribute is ever assigned. -/
theorem setattr_wrap_counterexample :
    hutomaSetattr (fun _ loc => loc) "https://api.hutoma.com"
        [("_has_fetched", true)] 2 "AIID" (.str "u1") = .attrErrorRaised ∧
    (SetattrOutcome.attrErrorRaised ≠ .wrapped (.str "u1")) ∧
    (∀ a : Attr, SetattrOutcome.attrErrorRaised ≠ .stored a) := by
  refine ⟨rfl, by simp, fun a => by simp⟩

/-- Claim C10 (amended): because `HUTOMA_KEYS` is the string `AIID`, the
`__setattr__` special case fires exactly on attribute names that occur
as contiguous substrings of `AIID` - among the nonempty ones the nine
listed names.  In the special case a truthy boolean is stored unchanged
and the string `[deleted]` is stored as `None`; but for every other
truthy value the arm evaluates `AI(self.session, value, fetch=False)`,
which never completes - the `self.session` read recurses forever during
construction and raises `AttributeError` on a populated object, and the
`AI` construction itself would raise `KeyError` for the missing `info`
path - so the assignment raises instead of storing a wrapped reference.
An attribute whose name is not a substring of `AIID` is always stored
unchanged. -/
theorem setattr_special_case :
    (∀ (urljoin : String → String → String) (api_url : String)
       (dict : List (String × Bool)) (fuel : Nat) (name : String) (v : Json),
      strIn name HUTOMA_KEYS = true → truthy v = true →
      isBoolJson v = false → isDeletedStr v = false →
      lookupField dict "session" = none →
      lookupField dict "_has_fetched" = none →
      hutomaSetattr urljoin api_url dict fuel name v = .recursionError) ∧
    (∀ (urljoin : String → String → String) (api_url : String)
       (dict : List (String × Bool)) (n : Nat) (name : String) (v : Json),
      strIn name HUTOMA_KEYS = true → truthy v = true →
      isBoolJson v = false → isDeletedStr v = false →
      lookupField dict "session" = none →
      lookupField dict "_has_fetched" = some true →
      hutomaSetattr urljoin api_url dict (n + 2) name v = .attrErrorRaised) ∧
    (∀ (urljoin : String → String → String) (api_url : String)
       (dict : List (String × Bool)) (fuel : Nat) (name : String) (v w : Json),
      strIn name HUTOMA_KEYS = true → truthy v = true →
      isBoolJson v = false → isDeletedStr v = false →
      hutomaSetattr urljoin api_url dict fuel name v ≠ .wrapped w) ∧
    (∀ (urljoin : String → String → String) (api_url : String)
       (dict : List (String × Bool)) (fuel : Nat) (name : String),
      strIn name HUTOMA_KEYS = true →
      hutomaSetattr urljoin api_url dict fuel name (.bool true)
        = .stored (.raw (.bool true))) ∧
    (∀ (urljoin : String → String → String) (api_url : String)
       (dict : List (String × Bool)) (fuel : Nat) (name : String),
      strIn name HUTOMA_KEYS = true →
      hutomaSetattr urljoin api_url dict fuel name (.str "[deleted]")
        = .stored .pyNone) ∧
    (∀ (urljoin : String → String → String) (api_url : String)
       (dict : List (String × Bool)) (fuel : Nat) (name : String) (v : Json),
      strIn name HUTOMA_KEYS = false →
      hutomaSetattr urljoin api_url dict fuel name v = .stored (.raw v)) ∧
    (∀ nm : String,
      nm ∈ (["A", "I", "D", "AI", "ID", "II", "AII", "IID", "AIID"] : List String) →
      strIn nm HUTOMA_KEYS = true) ∧
    (strIn "id" HUTOMA_KEYS = false ∧ strIn "kind" HUTOMA_KEYS = false ∧
     strIn "AIAI" HUTOMA_KEYS = false) := by
  refine ⟨?_, ?_, ?_, ?_, ?_, ?_, by decide, by decide⟩
  · intro u a dict fuel name v hin htr hb hd hs hf
    have hdv := getattr_session_none_diverges dict hs hf fuel
    cases v <;> simp_all [hutomaSetattr, isBoolJson, isDeletedStr]
  · intro u a dict n name v hin htr hb hd hs hf
    have hae := getattr_session_hf_true dict n hs hf
    cases v <;> simp_all [hutomaSetattr, isBoolJson, isDeletedStr]
  · intro u a dict fuel name v w hin htr hb hd
    have hinit := hutomaObjectInit_none u a fuel
    cases hg : getattrFuel dict fuel "session" <;>
      cases v <;> simp_all [hutomaSetattr, isBoolJson, isDeletedStr]
  · intro u a dict fuel name hin
    simp [hutomaSetattr, truthy, hin]
  · intro u a dict fuel name hin
    simp [hutomaSetattr, truthy, hin]
    decide
  · intro u a dict fuel name v hin
    simp [hutomaSetattr, hin]

/-- Witness for the amended C10 theorem: a wrap attempt during
construction recurses, a truthy boolean and a non-substring name are
stored unchanged. -/
theorem setattr_special_case_witness :
    hutomaSetattr (fun _ loc => loc) "https://api.hutoma.com" [] 3 "AIID"
        (.str "u1") = .recursionError ∧
    hutomaSetattr (fun _ loc => loc) "https://api.hutoma.com" [] 3 "AIID"
        (.bool true) = .stored (.raw (.bool true)) ∧
    hutomaSetattr (fun _ loc => loc) "https://api.hutoma.com" [] 3 "description"
        (.str "u1") = .stored (.raw (.str "u1")) :=
  ⟨setattr_special_case.1 (fun _ loc => loc) "https://api.hutoma.com" [] 3 "AIID"
      (.str "u1") (by decide) (by decide) (by decide) (by decide) rfl rfl,
   setattr_special_case.2.2.2.1 (fun _ loc => loc) "https://api.hutoma.com" [] 3
      "AIID" (by decide),
   setattr_special_case.2.2.2.2.2.1 (fun _ loc => loc) "https://api.hutoma.com" [] 3
      "description" (.str "u1") (by decide)⟩

end HutomaSpec
